import Mathlib

/-!
# Verification of the AML Assistant risk-analysis orchestration engine

Shallow embedding of the orchestration core of the AML Assistant repository:

* `src/ai/intelligent_engine.py` — `IntelligentAIEngine` (fallback orchestrator,
  confidence calculation, learning store), `LocalIntelligenceProvider` and its
  sub-engines (`RuleBasedEngine`, `PatternDetectionEngine`, `RiskCalculationEngine`).
* `src/core/aml_assistant.py` — `UltimateAMLAssistant` facade (comprehensive result
  assembly, alert counter, alert submission with caught failures).
* `src/core/core_config.py` — the relevant default configuration constants.
* `src/integration/bank_system.py` — `SimulationSystem` (sample customers and
  transactions, profile lookup with empty-dict default).

Python dicts with optional keys are embedded as structures with `Option` fields;
floats are embedded as rationals (`ℚ`); a raised exception is embedded as an
error outcome (`Option`/explicit error constructor).  Scoring backends are the
orchestrator's environment: each backend is modelled by the outcomes of its
successive invocations within a single request (`ProviderBehavior.first` for the
first call, `.second` for a possible second call — a `none` outcome is a raised
exception such as the spec's `BackendUnavailable`/`BackendTimeout`).
-/

/-- Association-list lookup with Python-`dict.get` semantics: first binding of
the key wins (Python dicts have unique keys, so lists we build have `Nodup` keys). -/
def dictGet {α : Type} (key : String) : List (String × α) → Option α
  | [] => none
  | (k, v) :: rest => if k = key then some v else dictGet key rest

/-- A transaction record (`transaction_data` dict); every key may be absent. -/
structure Transaction where
  transaction_id : Option String := none
  customer_id : Option String := none
  amount : Option ℚ := none
  type : Option String := none
  channel : Option String := none
  counterparty : Option String := none
deriving DecidableEq

/-- A customer profile (`customer_data` / `customer_profile` dict); the empty
dict `{}` (all fields `none`) is what `SimulationSystem.get_customer_profile`
returns for an unknown customer id. -/
structure CustomerProfile where
  customer_id : Option String := none
  name : Option String := none
  risk_tier : Option String := none
  business_type : Option String := none
  kyc_status : Option String := none
  monthly_volume : Option ℚ := none
  account_age_days : Option Nat := none
  pep_status : Option Bool := none
  sanctions_match : Option Bool := none
  account_balance : Option ℚ := none
deriving DecidableEq

/-- The result dict produced by a scoring backend's `analyze` and decorated by
the orchestrator.  `ai_provider` and `fallback_used` are absent (`none` / `false`)
unless the orchestrator sets them; `confidence` is the backend's base confidence
until the orchestrator overwrites it with the adjusted value. -/
structure EngineResult where
  risk_level : String
  risk_score : ℚ
  risk_factors : List String
  recommended_actions : List String := []
  detected_patterns : List String := []
  confidence : Option ℚ := none
  analysis_method : Option String := none
  ai_provider : Option String := none
  fallback_used : Bool := false
deriving DecidableEq

/-- From `core_config.py` `default_config["risk"]["high_risk_score"]`. -/
def high_risk_score : ℚ := 70

/-- From `core_config.py` `default_config["learning"]["pattern_memory_size"]`. -/
def pattern_memory_size : Nat := 1000

namespace RuleBasedEngine

/-- `RuleBasedEngine.analyze`: returns fixed factor labels and actions
(the source ignores its arguments). -/
def analyze (_td : Transaction) (_cd : CustomerProfile) : List String × List String :=
  (["rule_based_factor_1", "rule_based_factor_2"], ["action_1", "action_2"])

end RuleBasedEngine

namespace PatternDetectionEngine

/-- `PatternDetectionEngine.detect_patterns`: returns fixed pattern labels and
factors (the source ignores its arguments). -/
def detect_patterns (_td : Transaction) (_cd : CustomerProfile) : List String × List String :=
  (["structuring", "unusual_behavior"], ["pattern_based_factor_1"])

end PatternDetectionEngine

namespace RiskCalculationEngine

/-- `RiskCalculationEngine.calculate_risk`: returns the fixed example score 65.0
(the source ignores its arguments). -/
def calculate_risk (_td : Transaction) (_cd : CustomerProfile) : ℚ := 65

end RiskCalculationEngine

/-- The dict returned by `LocalIntelligenceProvider._fuse_results`. -/
structure FusedResult where
  risk_level : String
  risk_score : ℚ
  risk_factors : List String
  actions : List String
  confidence : ℚ
deriving DecidableEq

namespace LocalIntelligenceProvider

/-- `LocalIntelligenceProvider._fuse_results`: hardcodes `risk_level = 'medium'`
(the source comment reads `# Simplified`), passes the numeric score through,
concatenates rule factors with pattern factors, and sets base confidence 0.7.
`rule_result` is (factors, actions); `pattern_result` is (patterns, factors). -/
def fuse_results (rule_result : List String × List String)
    (pattern_result : List String × List String) (risk_score : ℚ) : FusedResult :=
  { risk_level := "medium"
    risk_score := risk_score
    risk_factors := rule_result.1 ++ pattern_result.2
    actions := rule_result.2
    confidence := 0.7 }

/-- `LocalIntelligenceProvider.analyze`: runs the three sub-engines, fuses, and
assembles the result dict.  In the source this method never raises. -/
def analyze (td : Transaction) (cd : CustomerProfile) : EngineResult :=
  let rule_based_result := RuleBasedEngine.analyze td cd
  let pattern_result := PatternDetectionEngine.detect_patterns td cd
  let risk_score := RiskCalculationEngine.calculate_risk td cd
  let final_result := fuse_results rule_based_result pattern_result risk_score
  { risk_level := final_result.risk_level
    risk_score := final_result.risk_score
    risk_factors := final_result.risk_factors
    recommended_actions := final_result.actions
    detected_patterns := pattern_result.1
    confidence := some final_result.confidence
    analysis_method := some "local_intelligence" }

end LocalIntelligenceProvider

namespace IntelligentAIEngine

/-- `IntelligentAIEngine._calculate_confidence`.  `metrics` embeds
`self.performance_metrics` flattened to backend-identifier ↦ rolling accuracy
(`performance_metrics.get(provider, {}).get('accuracy', 0.8)`); in the source the
dict starts empty and `_update_performance_metrics` is a no-op, so every lookup
falls back to the 0.8 default. -/
def calculate_confidence (metrics : List (String × ℚ)) (result : EngineResult) : ℚ :=
  let base_confidence : ℚ := result.confidence.getD 0.5
  let provider : String := result.ai_provider.getD "local"
  let provider_performance : ℚ := (dictGet provider metrics).getD 0.8
  let risk_factors : Nat := result.risk_factors.length
  let complexity_factor : ℚ := min ((risk_factors : ℚ) / 10) 1
  min (base_confidence * 0.6 + provider_performance * 0.3 + complexity_factor * 0.1) 1

/-- The two in-place dict mutations `analyze_transaction` performs on a
successful backend result before storing and returning it:
`result['ai_provider'] = name` followed by
`result['confidence'] = self._calculate_confidence(result)` (the confidence is
computed on the result that already carries `ai_provider`). -/
def set_provider_and_confidence (metrics : List (String × ℚ)) (name : String)
    (r : EngineResult) : EngineResult :=
  let r1 := { r with ai_provider := some name }
  { r1 with confidence := some (calculate_confidence metrics r1) }

end IntelligentAIEngine

/-- One entry of the Learning Store (`learning_entry` dict built in
`IntelligentAIEngine._store_analysis_result`).  The wall-clock `datetime.now()`
timestamp is embedded as an abstract `Nat`; the human feedback payload
(`correct_assessment` dict) is embedded as an opaque `String`. -/
structure LearningEntry where
  timestamp : Nat := 0
  transaction : Transaction
  customer : CustomerProfile
  result : EngineResult
  feedback : Option String := none
deriving DecidableEq

namespace IntelligentAIEngine

/-- Builds the learning entry stored by `_store_analysis_result`. -/
def mkLearningEntry (td : Transaction) (cd : CustomerProfile) (result : EngineResult) :
    LearningEntry :=
  { transaction := td, customer := cd, result := result }

/-- `IntelligentAIEngine._store_analysis_result`, entry construction factored out:
when the memory has reached `pattern_memory_size` (`cap`), `pop(0)` evicts the
oldest entry, then the new entry is appended. -/
def store_analysis_result (cap : Nat) (learning_memory : List LearningEntry)
    (entry : LearningEntry) : List LearningEntry :=
  if cap ≤ learning_memory.length then learning_memory.drop 1 ++ [entry]
  else learning_memory ++ [entry]

/-- `IntelligentAIEngine.learn_from_feedback` (memory-update part): walk the
learning memory from the oldest entry to the newest, attach the feedback to the
first entry whose `transaction['transaction_id']` equals `transaction_id`, and
stop (`break`). -/
def learn_from_feedback (transaction_id : String) (correct_assessment : String) :
    List LearningEntry → List LearningEntry
  | [] => []
  | entry :: rest =>
    if entry.transaction.transaction_id = some transaction_id then
      { entry with feedback := some correct_assessment } :: rest
    else
      entry :: learn_from_feedback transaction_id correct_assessment rest

end IntelligentAIEngine

/-- Environment model of one scoring backend within a single `analyze_transaction`
request: the outcome of its first invocation and of a possible second invocation
(`none` = the call raised, e.g. `BackendUnavailable`/`BackendTimeout`).  Within
one request the orchestrator invokes each backend at most once before the
ultimate-fallback step, and only `'local'` can be invoked a second time. -/
structure ProviderBehavior where
  first : Option EngineResult := none
  second : Option EngineResult := none
deriving DecidableEq

/-- Which return path of `IntelligentAIEngine.analyze_transaction` produced the
result: the primary-provider branch, the fallback sweep, or the ultimate
fallback to `available_providers['local']`. -/
inductive RetPath where
  | viaPrimary
  | viaSweep
  | viaUltimate
deriving DecidableEq

/-- Outcome of `IntelligentAIEngine.analyze_transaction`: a returned result dict
(with the path that produced it), or a propagated exception (`err`). -/
inductive AnalyzeResult where
  | ok (r : EngineResult) (path : RetPath)
  | err
deriving DecidableEq

/-- Full observable outcome of one `analyze_transaction` request: the returned
value or error, the ordered trace of backend invocations (by provider name),
and the learning memory after the request. -/
structure AnalyzeOut where
  result : AnalyzeResult
  trace : List String
  memory : List LearningEntry
deriving DecidableEq

namespace IntelligentAIEngine

/-- The fallback sweep (`for provider_name, provider in self.available_providers.items(): if provider_name != primary_provider: ...`):
first component is the first succeeding non-primary provider (its name and raw
result), second component is the ordered list of non-primary providers invoked
(every failure plus the final success, if any). -/
def sweep (primary : String) : List (String × ProviderBehavior) →
    Option (String × EngineResult) × List String
  | [] => (none, [])
  | (name, beh) :: rest =>
    if name = primary then sweep primary rest
    else
      match beh.first with
      | some r => (some (name, r), [name])
      | none => ((sweep primary rest).1, name :: (sweep primary rest).2)

/-- Outcome of the ultimate-fallback invocation of `'local'` (`return await
self.available_providers['local'].analyze(...)`, line 89): the raw local result
is returned as-is — no `ai_provider`, no adjusted confidence, no
`fallback_used`, no learning-store record — and a raised exception propagates
to the caller (`err`).  `second_outcome` is the outcome of this second
invocation of the local provider within the request. -/
def ultimate_result (second_outcome : Option EngineResult) (prior_trace : List String)
    (learning_memory : List LearningEntry) : AnalyzeOut :=
  match second_outcome with
  | some r =>
    { result := .ok r .viaUltimate, trace := prior_trace ++ ["local"],
      memory := learning_memory }
  | none =>
    { result := .err, trace := prior_trace ++ ["local"], memory := learning_memory }

/-- The lookup `self.available_providers['local']` for the ultimate fallback:
a missing `'local'` key would raise `KeyError` (`err`, without invoking any
backend); otherwise the local provider is invoked a second time. -/
def ultimate_fallback (local_beh : Option ProviderBehavior) (prior_trace : List String)
    (learning_memory : List LearningEntry) : AnalyzeOut :=
  match local_beh with
  | some beh => ultimate_result beh.second prior_trace learning_memory
  | none => { result := .err, trace := prior_trace, memory := learning_memory }

/-- The part of `IntelligentAIEngine.analyze_transaction` after the primary
attempt: the fallback sweep (first non-primary success wins: `result['ai_provider'] = provider_name`,
`result['confidence'] = ...`, `result['fallback_used'] = True`, store, return),
then — if the sweep is exhausted — the ultimate fallback to
`self.available_providers['local']`, which is the local provider's *second*
invocation in this request (it was already invoked once, as primary or during
the sweep). -/
def sweep_phase (providers : List (String × ProviderBehavior)) (primary : String)
    (metrics : List (String × ℚ)) (cap : Nat) (learning_memory : List LearningEntry)
    (td : Transaction) (cd : CustomerProfile) (primary_trace : List String) : AnalyzeOut :=
  match (sweep primary providers).1 with
  | some (name, r) =>
    { result := .ok { set_provider_and_confidence metrics name r with fallback_used := true }
        .viaSweep
      trace := primary_trace ++ (sweep primary providers).2
      memory := store_analysis_result cap learning_memory (mkLearningEntry td cd
        { set_provider_and_confidence metrics name r with fallback_used := true }) }
  | none =>
    ultimate_fallback (dictGet "local" providers)
      (primary_trace ++ (sweep primary providers).2) learning_memory

/-- The primary attempt (`if primary_provider in self.available_providers: try: ...`):
first component is the outcome of the primary provider's first call (`none`
both when the primary raised and when it is not among the available providers),
second component is the trace this attempt contributes (the primary is invoked
only when present). -/
def primary_attempt (primary : String) (beh_opt : Option ProviderBehavior) :
    Option EngineResult × List String :=
  match beh_opt with
  | some beh => (beh.first, [primary])
  | none => (none, [])

/-- `IntelligentAIEngine.analyze_transaction`: try the configured primary
provider first (when it is among the available providers); on success set
`ai_provider`, compute the adjusted confidence on the decorated result, store
to the learning memory, and return.  On failure (or absent primary) run the
fallback sweep and, if that is exhausted, the ultimate fallback (`sweep_phase`). -/
def analyze_transaction (providers : List (String × ProviderBehavior)) (primary : String)
    (metrics : List (String × ℚ)) (cap : Nat) (learning_memory : List LearningEntry)
    (td : Transaction) (cd : CustomerProfile) : AnalyzeOut :=
  match (primary_attempt primary (dictGet primary providers)).1 with
  | some r =>
    { result := .ok (set_provider_and_confidence metrics primary r) .viaPrimary
      trace := [primary]
      memory := store_analysis_result cap learning_memory (mkLearningEntry td cd
        (set_provider_and_confidence metrics primary r)) }
  | none =>
    sweep_phase providers primary metrics cap learning_memory td cd
      (primary_attempt primary (dictGet primary providers)).2

end IntelligentAIEngine

namespace SimulationSystem

/-- `SimulationSystem._initialize_sample_customers`: the three sample customers. -/
def sample_customers : List (String × CustomerProfile) :=
  [("CUST001",
    { customer_id := some "CUST001"
      name := some "John's Fine Dining Restaurant"
      risk_tier := some "medium_risk"
      business_type := some "Restaurant & Hospitality"
      kyc_status := some "verified"
      monthly_volume := some 75000
      account_age_days := some 420
      pep_status := some false
      sanctions_match := some false
      account_balance := some 150000 }),
   ("CUST002",
    { customer_id := some "CUST002"
      name := some "Tech Startup Inc."
      risk_tier := some "low_risk"
      business_type := some "Technology Services"
      kyc_status := some "verified"
      monthly_volume := some 50000
      account_age_days := some 180
      pep_status := some false
      sanctions_match := some false
      account_balance := some 75000 }),
   ("CUST003",
    { customer_id := some "CUST003"
      name := some "Global Trading LLC"
      risk_tier := some "high_risk"
      business_type := some "International Trade"
      kyc_status := some "enhanced_due_diligence"
      monthly_volume := some 500000
      account_age_days := some 730
      pep_status := some true
      sanctions_match := some false
      account_balance := some 1000000 })]

/-- `SimulationSystem._initialize_sample_transactions`: the two sample transactions. -/
def sample_transactions : List Transaction :=
  [{ transaction_id := some "TX001"
     customer_id := some "CUST001"
     amount := some 9500
     type := some "cash_deposit"
     counterparty := some "Business Account"
     channel := some "branch" },
   { transaction_id := some "TX002"
     customer_id := some "CUST001"
     amount := some 12000
     type := some "wire_transfer"
     counterparty := some "Supplier Corp"
     channel := some "online" }]

/-- `SimulationSystem.get_customer_profile`: `self.customers.get(customer_id, {})` —
for an unknown id it returns the empty dict (here: the all-`none` profile), never
raising `DataSourceUnavailable`. -/
def get_customer_profile (customer_id : String) : CustomerProfile :=
  (dictGet customer_id sample_customers).getD {}

/-- `SimulationSystem.get_transaction_history`: the sample transactions filtered
by customer id. -/
def get_transaction_history (customer_id : String) : List Transaction :=
  sample_transactions.filter (fun tx => tx.customer_id = some customer_id)

end SimulationSystem

/-- The context dict returned by `BankIntegrationManager.process_transaction`. -/
structure BankContext where
  customer_profile : CustomerProfile
  recent_transactions : List Transaction
  system_type : String
  simulation_mode : Bool
deriving DecidableEq

/-- `BankIntegrationManager.process_transaction` with the `SimulationSystem`
backend: indexing `transaction_data['customer_id']` raises `KeyError` when the
key is absent (`none` result); otherwise it fetches the profile and history. -/
def process_transaction (td : Transaction) : Option BankContext :=
  td.customer_id.map (fun cid =>
    { customer_profile := SimulationSystem.get_customer_profile cid
      recent_transactions := SimulationSystem.get_transaction_history cid
      system_type := "SimulationSystem"
      simulation_mode := true })

/-- The `risk_assessment` sub-dict of the comprehensive result. -/
structure RiskAssessmentOut where
  risk_level : String
  risk_score : ℚ
  primary_factors : List String
  confidence : ℚ
  ai_provider : String
deriving DecidableEq, Inhabited

/-- The comprehensive analysis result assembled by
`UltimateAMLAssistant._generate_comprehensive_result` (the wall-clock timestamp
field is omitted from the embedding). -/
structure AnalysisResult where
  transaction_id : Option String
  risk_assessment : RiskAssessmentOut
  detected_patterns : List String
  recommended_actions : List String
  system_type : String
  simulation_mode : Bool
  analysis_method : String
  customer_risk_tier : String
  transaction_count : Nat
  customer_since_days : Nat
deriving DecidableEq, Inhabited

/-- The alert dict built by `UltimateAMLAssistant._submit_alert`.  The
`alert_id` is the counter value rendered as `ALERT_{counter:06d}`; the numeric
counter value is carried alongside the rendered string. -/
structure Alert where
  alert_number : Nat
  alert_id : String
  transaction_id : Option String
  risk_level : String
  risk_score : ℚ
  detected_patterns : List String
deriving DecidableEq

/-- Outcome of one `bank_integration.system.submit_alert` call, as seen by the
facade: returned `True`, returned `False`, or raised an exception. -/
inductive SubmitOutcome where
  | success
  | returnedFalse
  | raised
deriving DecidableEq

namespace UltimateAMLAssistant

/-- `UltimateAMLAssistant._generate_comprehensive_result`: assembles the
externally visible result from the transaction, bank context, and AI analysis,
with the source's `.get(...)` defaults. -/
def generate_comprehensive_result (td : Transaction) (bank_context : BankContext)
    (ai_analysis : EngineResult) : AnalysisResult :=
  { transaction_id := td.transaction_id
    risk_assessment :=
      { risk_level := ai_analysis.risk_level
        risk_score := ai_analysis.risk_score
        primary_factors := ai_analysis.risk_factors
        confidence := ai_analysis.confidence.getD 0.5
        ai_provider := ai_analysis.ai_provider.getD "local" }
    detected_patterns := ai_analysis.detected_patterns
    recommended_actions := ai_analysis.recommended_actions
    system_type := bank_context.system_type
    simulation_mode := bank_context.simulation_mode
    analysis_method := ai_analysis.analysis_method.getD "local_intelligence"
    customer_risk_tier := bank_context.customer_profile.risk_tier.getD "unknown"
    transaction_count := bank_context.recent_transactions.length
    customer_since_days := bank_context.customer_profile.account_age_days.getD 0 }

/-- Renders the alert identifier `f"ALERT_{counter:06d}"`. -/
def format_alert_id (counter : Nat) : String :=
  "ALERT_" ++ (String.mk (List.replicate (6 - (toString counter).length) '0')) ++
    toString counter

/-- `UltimateAMLAssistant._submit_alert`: increments the per-process alert
counter, builds the alert from the analysis result, and attempts submission.
The `try/except` swallows both a `False` return (logged warning) and a raised
exception (logged error): the outcome never affects state beyond the log, so
all three `SubmitOutcome`s yield the same counter and alert.  Returns the new
counter value and the alert that was built and submitted. -/
def submit_alert (outcome : SubmitOutcome) (alert_counter : Nat)
    (analysis_result : AnalysisResult) : Nat × Alert :=
  let counter := alert_counter + 1
  let alert : Alert :=
    { alert_number := counter
      alert_id := format_alert_id counter
      transaction_id := analysis_result.transaction_id
      risk_level := analysis_result.risk_assessment.risk_level
      risk_score := analysis_result.risk_assessment.risk_score
      detected_patterns := analysis_result.detected_patterns }
  match outcome with
  | .success => (counter, alert)
  | .returnedFalse => (counter, alert)
  | .raised => (counter, alert)

/-- Steps 3–4 of `UltimateAMLAssistant.analyze_transaction`: assemble the
comprehensive result from the already-fetched bank context and the AI analysis;
if the risk level is `high` or `severe`, submit an alert (submission failure is
caught inside `submit_alert`); return the result together with the new alert
counter and the alert submitted, if any. -/
def analyze_transaction (outcome : SubmitOutcome) (td : Transaction)
    (bank_context : BankContext) (ai_analysis : EngineResult) (alert_counter : Nat) :
    AnalysisResult × Nat × Option Alert :=
  let result := generate_comprehensive_result td bank_context ai_analysis
  if result.risk_assessment.risk_level = "high" ∨
      result.risk_assessment.risk_level = "severe" then
    let sub := submit_alert outcome alert_counter result
    (result, sub.1, some sub.2)
  else
    (result, alert_counter, none)

/-- The sequence of numeric alert identifiers produced by `n` successive
`_submit_alert` calls starting from counter value `c` (each call increments the
counter and uses the incremented value as the identifier). -/
def alert_id_seq (c : Nat) : Nat → List Nat
  | 0 => []
  | n + 1 =>
    let step := submit_alert .success c default
    step.2.alert_number :: alert_id_seq step.1 n

end UltimateAMLAssistant

/-- The suffix of `l` of length at most `cap` (the most recent `cap` elements):
the shape invariant of the bounded-FIFO learning memory. -/
def lastN (cap : Nat) (l : List LearningEntry) : List LearningEntry :=
  l.drop (l.length - cap)

/-- Modelled from the spec (amended): the index of the *oldest* (first-inserted,
lowest-index) learning-memory entry whose transaction id matches.  Used to state
which single entry `learn_from_feedback` updates. -/
def oldest_match_idx (transaction_id : String) : List LearningEntry → Option Nat
  | [] => none
  | entry :: rest =>
    if entry.transaction.transaction_id = some transaction_id then some 0
    else (oldest_match_idx transaction_id rest).map (· + 1)

/-- Modelled from the spec (amended): attach feedback to the entry at the given
index (if any), leaving every other entry unchanged. -/
def attach_feedback_at (correct_assessment : String) (mem : List LearningEntry) :
    Option Nat → List LearningEntry
  | none => mem
  | some i =>
    match mem[i]? with
    | none => mem
    | some entry => mem.set i { entry with feedback := some correct_assessment }

/-- A concrete learning entry used to instantiate the learning-store theorems:
`t` is the (abstract) timestamp, `tid` the stored transaction's id. -/
def sampleEntry (t : Nat) (tid : Option String) : LearningEntry :=
  { timestamp := t
    transaction := { transaction_id := tid }
    customer := {}
    result := LocalIntelligenceProvider.analyze {} {} }

/-!
## Helper lemmas
-/

theorem dictGet_mem {α : Type} {key : String} {l : List (String × α)} {v : α}
    (h : dictGet key l = some v) : (key, v) ∈ l := by
  induction l with
  | nil => simp [dictGet] at h
  | cons x rest ih =>
    rw [dictGet] at h
    split at h
    · rename_i hk
      cases h
      obtain ⟨k, v⟩ := x
      cases hk
      exact List.mem_cons_self _ _
    · exact List.mem_cons_of_mem _ (ih h)

namespace IntelligentAIEngine

theorem sweep_trace_sublist (primary : String) (l : List (String × ProviderBehavior)) :
    (sweep primary l).2.Sublist (l.map Prod.fst) := by
  induction l with
  | nil => simp [sweep]
  | cons x rest ih =>
    rw [sweep]
    split
    · exact ih.cons _
    · split
      · simp only [List.map_cons]
        exact (List.nil_sublist _).cons₂ _
      · simp only [List.map_cons]
        exact ih.cons₂ _

theorem sweep_primary_not_mem (primary : String) (l : List (String × ProviderBehavior)) :
    primary ∉ (sweep primary l).2 := by
  induction l with
  | nil => simp [sweep]
  | cons x rest ih =>
    rw [sweep]
    split
    · exact ih
    · rename_i hne
      split
      · simp only [List.mem_singleton]
        exact fun h => hne h.symm
      · intro hmem
        rcases List.mem_cons.mp hmem with h | h
        · exact hne h.symm
        · exact ih h

theorem sweep_eq_none_of_all_fail {primary : String} {l : List (String × ProviderBehavior)}
    (h : ∀ x ∈ l, x.2.first = none) : (sweep primary l).1 = none := by
  induction l with
  | nil => simp [sweep]
  | cons x rest ih =>
    rw [sweep]
    split
    · exact ih (fun y hy => h y (List.mem_cons_of_mem _ hy))
    · have hx := h x (List.mem_cons_self _ _)
      rw [hx]
      exact ih (fun y hy => h y (List.mem_cons_of_mem _ hy))

theorem sweep_some_spec {primary : String} {l : List (String × ProviderBehavior)}
    {name : String} {r : EngineResult} (h : (sweep primary l).1 = some (name, r)) :
    name ≠ primary ∧ ∃ b, (name, b) ∈ l ∧ b.first = some r := by
  induction l with
  | nil => simp [sweep] at h
  | cons x rest ih =>
    rw [sweep] at h
    split at h
    · obtain ⟨h1, b, h2, h3⟩ := ih h
      exact ⟨h1, b, List.mem_cons_of_mem _ h2, h3⟩
    · rename_i hne
      split at h
      · rename_i hr
        cases h
        exact ⟨hne, x.2, List.mem_cons_self _ _, hr⟩
      · obtain ⟨h1, b, h2, h3⟩ := ih h
        exact ⟨h1, b, List.mem_cons_of_mem _ h2, h3⟩

theorem sweep_isSome_of_exists {primary : String} {l : List (String × ProviderBehavior)}
    (h : ∃ x ∈ l, x.1 ≠ primary ∧ x.2.first.isSome) : (sweep primary l).1.isSome := by
  induction l with
  | nil => simp at h
  | cons x rest ih =>
    obtain ⟨y, hy, hyp, hys⟩ := h
    rw [sweep]
    split
    · rename_i hx
      rcases List.mem_cons.mp hy with rfl | hy
      · exact absurd hx hyp
      · exact ih ⟨y, hy, hyp, hys⟩
    · split
      · rfl
      · rename_i hx hfail
        rcases List.mem_cons.mp hy with rfl | hy
        · rw [hfail] at hys
          simp at hys
        · exact ih ⟨y, hy, hyp, hys⟩

theorem store_step_lastN {cap : Nat} (hcap : 1 ≤ cap) (l : List LearningEntry)
    (e : LearningEntry) :
    store_analysis_result cap (lastN cap l) e = lastN cap (l ++ [e]) := by
  unfold store_analysis_result lastN
  rw [List.length_drop, List.length_append]
  by_cases h : cap ≤ l.length
  · rw [if_pos (by omega)]
    rw [List.drop_drop, List.drop_append_eq_append_drop]
    simp only [List.length_singleton]
    have h1 : l.length + 1 - cap - l.length = 0 := by omega
    have h2 : l.length - cap + 1 = l.length + 1 - cap := by omega
    rw [h1, h2, List.drop_zero]
  · rw [if_neg (by omega)]
    simp only [List.length_singleton]
    have h1 : l.length - cap = 0 := by omega
    have h2 : l.length + 1 - cap = 0 := by omega
    rw [h1, h2, List.drop_zero, List.drop_zero]

theorem store_foldl {cap : Nat} (hcap : 1 ≤ cap) :
    ∀ (es l : List LearningEntry),
      es.foldl (store_analysis_result cap) (lastN cap l) = lastN cap (l ++ es)
  | [], l => by simp
  | e :: es, l => by
    rw [List.foldl_cons, store_step_lastN hcap l e, store_foldl hcap es (l ++ [e])]
    simp

theorem store_foldl_nil {cap : Nat} (hcap : 1 ≤ cap) (es : List LearningEntry) :
    es.foldl (store_analysis_result cap) [] = es.drop (es.length - cap) := by
  have h := store_foldl hcap es []
  simpa [lastN] using h

theorem attach_feedback_at_cons (correct_assessment : String) (entry : LearningEntry)
    (rest : List LearningEntry) (i : Nat) :
    attach_feedback_at correct_assessment (entry :: rest) (some (i + 1)) =
      entry :: attach_feedback_at correct_assessment rest (some i) := by
  show (match (entry :: rest)[i + 1]? with
        | none => entry :: rest
        | some e => (entry :: rest).set (i + 1) { e with feedback := some correct_assessment }) =
      entry :: (match rest[i]? with
        | none => rest
        | some e => rest.set i { e with feedback := some correct_assessment })
  rw [List.getElem?_cons_succ]
  cases rest[i]? with
  | none => rfl
  | some e => simp [List.set_cons_succ]

theorem learn_from_feedback_eq (transaction_id correct_assessment : String) :
    ∀ mem : List LearningEntry,
      learn_from_feedback transaction_id correct_assessment mem =
        attach_feedback_at correct_assessment mem (oldest_match_idx transaction_id mem)
  | [] => rfl
  | entry :: rest => by
    rw [learn_from_feedback, oldest_match_idx]
    by_cases h : entry.transaction.transaction_id = some transaction_id
    · rw [if_pos h, if_pos h]
      simp [attach_feedback_at]
    · rw [if_neg h, if_neg h]
      have ih := learn_from_feedback_eq transaction_id correct_assessment rest
      cases hidx : oldest_match_idx transaction_id rest with
      | none =>
        rw [hidx] at ih
        rw [ih]
        rfl
      | some i =>
        rw [hidx] at ih
        have hmap : Option.map (fun x => x + 1) (some i) = some (i + 1) := rfl
        rw [hmap, attach_feedback_at_cons, ← ih]

theorem learn_from_feedback_length (transaction_id correct_assessment : String)
    (mem : List LearningEntry) :
    (learn_from_feedback transaction_id correct_assessment mem).length = mem.length := by
  induction mem with
  | nil => rfl
  | cons entry rest ih =>
    rw [learn_from_feedback]
    split
    · simp
    · simpa using ih

end IntelligentAIEngine

namespace UltimateAMLAssistant

theorem alert_id_seq_getElem : ∀ (n c i : Nat), i < n →
    (alert_id_seq c n)[i]? = some (c + i + 1)
  | 0, _, i, h => by omega
  | n + 1, c, 0, _ => by
    show ((c + 1) :: alert_id_seq (c + 1) n)[0]? = some (c + 0 + 1)
    rw [List.getElem?_cons_zero]
  | n + 1, c, i + 1, h => by
    have ih := alert_id_seq_getElem n (c + 1) i (by omega)
    show ((c + 1) :: alert_id_seq (c + 1) n)[i + 1]? = some (c + (i + 1) + 1)
    rw [List.getElem?_cons_succ, ih]
    congr 1
    omega

end UltimateAMLAssistant

/-!
## Claim theorems
-/

/-- **C3** (confirmed).  For every assessment result, the adjusted confidence
computed by `IntelligentAIEngine._calculate_confidence` equals
`0.6·base_confidence + 0.3·backend_performance + 0.1·complexity_factor` with
`backend_performance` defaulting to 0.8 when no metric is recorded for the
backend (visible as the `.getD 0.8` in the statement) and
`complexity_factor = min(risk_factor_count / 10, 1)`, and the final value is
clamped to `[0, 1]`.  The source clamps only from above (`min(·, 1.0)`); under
the data-model precondition that the backend's base confidence and the rolling
accuracy metrics are non-negative (both live in `[0,1]`), this coincides with
the two-sided clamp, and the result indeed lies in `[0, 1]`. -/
theorem confidence_formula_clamped (metrics : List (String × ℚ)) (result : EngineResult)
    (hbase : 0 ≤ result.confidence.getD 0.5)
    (hperf : ∀ x ∈ metrics, 0 ≤ x.2) :
    IntelligentAIEngine.calculate_confidence metrics result =
      max 0 (min (0.6 * result.confidence.getD 0.5
        + 0.3 * (dictGet (result.ai_provider.getD "local") metrics).getD 0.8
        + 0.1 * min ((result.risk_factors.length : ℚ) / 10) 1) 1)
    ∧ 0 ≤ IntelligentAIEngine.calculate_confidence metrics result
    ∧ IntelligentAIEngine.calculate_confidence metrics result ≤ 1 := by
  have hp : (0:ℚ) ≤ (dictGet (result.ai_provider.getD "local") metrics).getD 0.8 := by
    cases hg : dictGet (result.ai_provider.getD "local") metrics with
    | none => norm_num
    | some v => simpa using hperf _ (dictGet_mem hg)
  have hc : (0:ℚ) ≤ min ((result.risk_factors.length : ℚ) / 10) 1 := by
    apply le_min _ (by norm_num)
    positivity
  have hs : (0:ℚ) ≤ result.confidence.getD 0.5 * 0.6
      + (dictGet (result.ai_provider.getD "local") metrics).getD 0.8 * 0.3
      + min ((result.risk_factors.length : ℚ) / 10) 1 * 0.1 := by
    have h1 : (0:ℚ) ≤ result.confidence.getD 0.5 * 0.6 := mul_nonneg hbase (by norm_num)
    have h2 : (0:ℚ) ≤ (dictGet (result.ai_provider.getD "local") metrics).getD 0.8 * 0.3 :=
      mul_nonneg hp (by norm_num)
    have h3 : (0:ℚ) ≤ min ((result.risk_factors.length : ℚ) / 10) 1 * 0.1 :=
      mul_nonneg hc (by norm_num)
    linarith
  have hcc : IntelligentAIEngine.calculate_confidence metrics result
      = min (result.confidence.getD 0.5 * 0.6
        + (dictGet (result.ai_provider.getD "local") metrics).getD 0.8 * 0.3
        + min ((result.risk_factors.length : ℚ) / 10) 1 * 0.1) 1 := rfl
  have hring : 0.6 * result.confidence.getD 0.5
        + 0.3 * (dictGet (result.ai_provider.getD "local") metrics).getD 0.8
        + 0.1 * min ((result.risk_factors.length : ℚ) / 10) 1
      = result.confidence.getD 0.5 * 0.6
        + (dictGet (result.ai_provider.getD "local") metrics).getD 0.8 * 0.3
        + min ((result.risk_factors.length : ℚ) / 10) 1 * 0.1 := by ring
  refine ⟨?_, ?_, ?_⟩
  · rw [hcc, hring, max_eq_right (le_min hs zero_le_one)]
  · rw [hcc]
    exact le_min hs zero_le_one
  · rw [hcc]
    exact min_le_right _ _

/-- Witness for C3: the confidence formula evaluated at a concrete result
(base 0.7, a recorded accuracy 0.9 for `openai`, three risk factors):
`0.7·0.6 + 0.9·0.3 + 0.3·0.1 = 0.72`, which lies in `[0, 1]`. -/
theorem confidence_formula_clamped_witness :
    IntelligentAIEngine.calculate_confidence [("openai", (0.9 : ℚ))]
        { risk_level := "medium", risk_score := 65, risk_factors := ["a", "b", "c"],
          confidence := some 0.7, ai_provider := some "openai" } = 0.72
    ∧ 0 ≤ IntelligentAIEngine.calculate_confidence [("openai", (0.9 : ℚ))]
        { risk_level := "medium", risk_score := 65, risk_factors := ["a", "b", "c"],
          confidence := some 0.7, ai_provider := some "openai" }
    ∧ IntelligentAIEngine.calculate_confidence [("openai", (0.9 : ℚ))]
        { risk_level := "medium", risk_score := 65, risk_factors := ["a", "b", "c"],
          confidence := some 0.7, ai_provider := some "openai" } ≤ 1 := by
  have h := confidence_formula_clamped [("openai", (0.9 : ℚ))]
    { risk_level := "medium", risk_score := 65, risk_factors := ["a", "b", "c"],
      confidence := some 0.7, ai_provider := some "openai" }
    (by norm_num) (by intro x hx; simp at hx; subst hx; norm_num)
  refine ⟨?_, h.2.1, h.2.2⟩
  rw [h.1]
  norm_num [dictGet]

/-- **C4 counterexample**.  `LocalIntelligenceProvider._fuse_results` does not
map the numeric score to a risk level via the configured thresholds: fed a
score of 75 (at or above the default `high_risk_score` of 70) it still returns
risk level `"medium"`, which is neither `"high"` nor `"severe"`. -/
theorem fuse_results_ignores_threshold :
    (LocalIntelligenceProvider.fuse_results (RuleBasedEngine.analyze {} {})
        (PatternDetectionEngine.detect_patterns {} {}) 75).risk_score = 75
    ∧ high_risk_score ≤ 75
    ∧ (LocalIntelligenceProvider.fuse_results (RuleBasedEngine.analyze {} {})
        (PatternDetectionEngine.detect_patterns {} {}) 75).risk_level = "medium"
    ∧ ¬("medium" = "high" ∨ "medium" = "severe") := by
  refine ⟨rfl, by norm_num [high_risk_score], rfl, by decide⟩

/-- **C4** (amended).  The local composite's fusion assigns the fixed risk
level `"medium"` regardless of thresholds; every result actually produced by
`LocalIntelligenceProvider.analyze` carries the fixed numeric score 65, which
is strictly below the configured `high_risk_score` of 70, so the
threshold-consistency invariant (score ≥ high_risk_score ⇒ level ∈
{high, severe}) holds vacuously for every reachable `AnalysisResult`. -/
theorem local_results_threshold_consistent (td td2 : Transaction) (cd : CustomerProfile)
    (ctx : BankContext) :
    (LocalIntelligenceProvider.analyze td cd).risk_score = 65
    ∧ (LocalIntelligenceProvider.analyze td cd).risk_score < high_risk_score
    ∧ (LocalIntelligenceProvider.analyze td cd).risk_level = "medium"
    ∧ (UltimateAMLAssistant.generate_comprehensive_result td2 ctx
        (LocalIntelligenceProvider.analyze td cd)).risk_assessment.risk_score
      < high_risk_score := by
  have h1 : (LocalIntelligenceProvider.analyze td cd).risk_score = 65 := rfl
  have h2 : (UltimateAMLAssistant.generate_comprehensive_result td2 ctx
      (LocalIntelligenceProvider.analyze td cd)).risk_assessment.risk_score = 65 := rfl
  refine ⟨rfl, ?_, rfl, ?_⟩
  · rw [h1]
    norm_num [high_risk_score]
  · rw [h2]
    norm_num [high_risk_score]

/-- **C5** (confirmed).  The Learning Store is a bounded FIFO of configurable
capacity (`pattern_memory_size` defaults to 1000): for every sequence `es` of
record operations starting from the empty store, the store's size never exceeds
the capacity; after `cap + 1` insertions the store equals `es.drop 1` — the
first-inserted entry's slot is evicted and the most recent `cap` entries remain
in insertion order — and (for pairwise-distinct entries) the first-inserted
entry is absent. -/
theorem learning_store_bounded_fifo (cap : Nat) (es : List LearningEntry) (hcap : 1 ≤ cap) :
    pattern_memory_size = 1000
    ∧ (es.foldl (IntelligentAIEngine.store_analysis_result cap) []).length ≤ cap
    ∧ (es.length = cap + 1 →
        es.foldl (IntelligentAIEngine.store_analysis_result cap) [] = es.drop 1)
    ∧ (es.length = cap + 1 → es.Nodup → ∀ e0, es.head? = some e0 →
        e0 ∉ es.foldl (IntelligentAIEngine.store_analysis_result cap) []) := by
  have hfold := IntelligentAIEngine.store_foldl_nil hcap es
  refine ⟨rfl, ?_, ?_, ?_⟩
  · rw [hfold, List.length_drop]
    omega
  · intro hlen
    rw [hfold, hlen]
    congr 1
    omega
  · intro hlen hnod e0 h0
    rw [hfold]
    cases es with
    | nil => simp at h0
    | cons a t =>
      simp only [List.head?_cons, Option.some_inj] at h0
      subst h0
      have hone : (a :: t).length - cap = 1 := by
        simp only [List.length_cons] at hlen ⊢
        omega
      rw [hone, List.drop_succ_cons, List.drop_zero]
      exact (List.nodup_cons.mp hnod).1

/-- Witness for C5: capacity 2, three distinct insertions — the store holds the
last two entries in order and the first entry is gone. -/
theorem learning_store_bounded_fifo_witness :
    ([sampleEntry 0 none, sampleEntry 1 none, sampleEntry 2 none].foldl
        (IntelligentAIEngine.store_analysis_result 2) []).length ≤ 2
    ∧ [sampleEntry 0 none, sampleEntry 1 none, sampleEntry 2 none].foldl
        (IntelligentAIEngine.store_analysis_result 2) []
      = [sampleEntry 1 none, sampleEntry 2 none]
    ∧ sampleEntry 0 none ∉ [sampleEntry 0 none, sampleEntry 1 none, sampleEntry 2 none].foldl
        (IntelligentAIEngine.store_analysis_result 2) [] := by
  have h := learning_store_bounded_fifo 2
    [sampleEntry 0 none, sampleEntry 1 none, sampleEntry 2 none] (by omega)
  refine ⟨h.2.1, ?_, h.2.2.2 rfl (by decide) (sampleEntry 0 none) rfl⟩
  rw [h.2.2.1 rfl]
  rfl

/-- **C6 counterexample**.  With two learning-store entries sharing the same
transaction id, `IntelligentAIEngine.learn_from_feedback` attaches the feedback
to the *oldest* (first-inserted, index 0) entry, not to the most recent one:
the most recent matching entry (index 1) is returned with `feedback = none`. -/
theorem feedback_skips_most_recent_match :
    IntelligentAIEngine.learn_from_feedback "TX1" "fb"
        [sampleEntry 0 (some "TX1"), sampleEntry 1 (some "TX1")]
      = [{ sampleEntry 0 (some "TX1") with feedback := some "fb" }, sampleEntry 1 (some "TX1")]
    ∧ (IntelligentAIEngine.learn_from_feedback "TX1" "fb"
        [sampleEntry 0 (some "TX1"), sampleEntry 1 (some "TX1")])[1]?
      = some (sampleEntry 1 (some "TX1"))
    ∧ (sampleEntry 1 (some "TX1")).feedback = none := ⟨rfl, rfl, rfl⟩

/-- **C6** (amended).  `submitFeedback` attaches feedback to the *oldest*
(first-inserted) Learning Store entry whose transaction id matches, and to at
most one entry per call: the updated store equals the original with exactly the
entry at `oldest_match_idx` replaced by its feedback-carrying copy (`List.set`
leaves every other position unchanged), and the store's length is preserved;
when no entry matches, the store is returned unchanged. -/
theorem feedback_attaches_oldest_match (transaction_id correct_assessment : String)
    (mem : List LearningEntry) :
    IntelligentAIEngine.learn_from_feedback transaction_id correct_assessment mem =
      attach_feedback_at correct_assessment mem (oldest_match_idx transaction_id mem)
    ∧ (IntelligentAIEngine.learn_from_feedback transaction_id correct_assessment mem).length
      = mem.length :=
  ⟨IntelligentAIEngine.learn_from_feedback_eq transaction_id correct_assessment mem,
   IntelligentAIEngine.learn_from_feedback_length transaction_id correct_assessment mem⟩

/-- **C7** (confirmed).  Numeric alert identifiers produced by successive
`UltimateAMLAssistant._submit_alert` calls within one process lifetime are
strictly increasing and never reused: whenever the `i`-th alert precedes the
`j`-th, the later identifier is strictly greater and distinct.  (The rendered
string id `ALERT_{n:06d}` is `format_alert_id` of this number.) -/
theorem alert_ids_strictly_increasing (c n i j a b : Nat) (hij : i < j) (hjn : j < n)
    (ha : (UltimateAMLAssistant.alert_id_seq c n)[i]? = some a)
    (hb : (UltimateAMLAssistant.alert_id_seq c n)[j]? = some b) :
    a < b ∧ a ≠ b := by
  rw [UltimateAMLAssistant.alert_id_seq_getElem n c i (by omega)] at ha
  rw [UltimateAMLAssistant.alert_id_seq_getElem n c j hjn] at hb
  simp only [Option.some_inj] at ha hb
  constructor <;> omega

/-- Witness for C7: starting from counter 0, three submissions produce ids
1, 2, 3; the first and third satisfy the strict ordering. -/
theorem alert_ids_strictly_increasing_witness :
    (UltimateAMLAssistant.alert_id_seq 0 3)[0]? = some 1
    ∧ (UltimateAMLAssistant.alert_id_seq 0 3)[2]? = some 3
    ∧ 1 < 3 ∧ (1 : Nat) ≠ 3 :=
  ⟨rfl, rfl, alert_ids_strictly_increasing 0 3 0 2 1 3 (by omega) (by omega) rfl rfl⟩

/-- **C8** (confirmed).  In the facade workflow, an alert is synthesized and
submitted if and only if the assembled result's risk level is `high` or
`severe`; and the submission outcome (success, `False` return, or raised
exception — all absorbed by the `try/except` in `_submit_alert`) never changes
the returned `AnalysisResult`, which is exactly the already-computed
comprehensive result. -/
theorem alert_iff_high_risk_and_nonfatal_submit (o1 o2 : SubmitOutcome) (td : Transaction)
    (ctx : BankContext) (ai : EngineResult) (c : Nat) :
    ((UltimateAMLAssistant.analyze_transaction o1 td ctx ai c).2.2.isSome ↔
      ((UltimateAMLAssistant.generate_comprehensive_result td ctx ai).risk_assessment.risk_level
          = "high"
        ∨ (UltimateAMLAssistant.generate_comprehensive_result td ctx ai).risk_assessment.risk_level
          = "severe"))
    ∧ (UltimateAMLAssistant.analyze_transaction o1 td ctx ai c).1
      = UltimateAMLAssistant.generate_comprehensive_result td ctx ai
    ∧ (UltimateAMLAssistant.analyze_transaction o1 td ctx ai c).1
      = (UltimateAMLAssistant.analyze_transaction o2 td ctx ai c).1 := by
  unfold UltimateAMLAssistant.analyze_transaction
  by_cases h : (UltimateAMLAssistant.generate_comprehensive_result td ctx ai).risk_assessment.risk_level = "high"
      ∨ (UltimateAMLAssistant.generate_comprehensive_result td ctx ai).risk_assessment.risk_level = "severe"
  · rw [if_pos h, if_pos h]
    simp [h]
  · rw [if_neg h, if_neg h]
    simp [h]

/-- **C10** (confirmed).  `SimulationSystem.get_customer_profile` returns the
empty profile (Python `{}`) for a customer id with no entry in the sample data
instead of raising `DataSourceUnavailable`; consequently the facade's analysis
of a transaction for an unknown customer proceeds — context fetch yields a bank
context (no error) — and the assembled result's customer risk tier is the
`"unknown"` default. -/
theorem unknown_customer_empty_profile (cid : String)
    (h : dictGet cid SimulationSystem.sample_customers = none) :
    SimulationSystem.get_customer_profile cid = {}
    ∧ ∀ (td : Transaction) (ai : EngineResult), td.customer_id = some cid →
        ∃ ctx, process_transaction td = some ctx
          ∧ (UltimateAMLAssistant.generate_comprehensive_result td ctx ai).customer_risk_tier
            = "unknown" := by
  have hprof : SimulationSystem.get_customer_profile cid = {} := by
    unfold SimulationSystem.get_customer_profile
    rw [h]
    rfl
  refine ⟨hprof, ?_⟩
  intro td ai htd
  refine ⟨{ customer_profile := SimulationSystem.get_customer_profile cid,
            recent_transactions := SimulationSystem.get_transaction_history cid,
            system_type := "SimulationSystem", simulation_mode := true }, ?_, ?_⟩
  · unfold process_transaction
    rw [htd]
    rfl
  · show (SimulationSystem.get_customer_profile cid).risk_tier.getD "unknown" = "unknown"
    rw [hprof]
    rfl

/-- Witness for C10: customer `CUST999` is not in the sample data; its profile
is empty and the facade result for a transaction of `CUST999` carries risk tier
`"unknown"`. -/
theorem unknown_customer_empty_profile_witness :
    SimulationSystem.get_customer_profile "CUST999" = {}
    ∧ ∃ ctx, process_transaction { transaction_id := some "TX9", customer_id := some "CUST999" }
          = some ctx
        ∧ (UltimateAMLAssistant.generate_comprehensive_result
            { transaction_id := some "TX9", customer_id := some "CUST999" } ctx
            (LocalIntelligenceProvider.analyze {} {})).customer_risk_tier = "unknown" := by
  have h := unknown_customer_empty_profile "CUST999" (by decide)
  exact ⟨h.1, h.2 { transaction_id := some "TX9", customer_id := some "CUST999" }
    (LocalIntelligenceProvider.analyze {} {}) rfl⟩

/-- Equation lemma: when the sweep finds a succeeding provider, `sweep_phase`
returns the decorated result via the sweep path and records it. -/
theorem IntelligentAIEngine.sweep_phase_eq_sweep_ok
    {providers : List (String × ProviderBehavior)} {primary : String}
    {metrics : List (String × ℚ)} {cap : Nat} {mem : List LearningEntry}
    {td : Transaction} {cd : CustomerProfile} {pt : List String}
    {n0 : String} {r0 : EngineResult}
    (hs : (IntelligentAIEngine.sweep primary providers).1 = some (n0, r0)) :
    IntelligentAIEngine.sweep_phase providers primary metrics cap mem td cd pt =
      { result := .ok { IntelligentAIEngine.set_provider_and_confidence metrics n0 r0 with
            fallback_used := true } .viaSweep
        trace := pt ++ (IntelligentAIEngine.sweep primary providers).2
        memory := IntelligentAIEngine.store_analysis_result cap mem
          (IntelligentAIEngine.mkLearningEntry td cd
            { IntelligentAIEngine.set_provider_and_confidence metrics n0 r0 with
              fallback_used := true }) } := by
  unfold IntelligentAIEngine.sweep_phase
  rw [hs]

/-- Equation lemma: when the sweep is exhausted, `sweep_phase` hands over to
the ultimate fallback. -/
theorem IntelligentAIEngine.sweep_phase_eq_ultimate
    {providers : List (String × ProviderBehavior)} {primary : String}
    {metrics : List (String × ℚ)} {cap : Nat} {mem : List LearningEntry}
    {td : Transaction} {cd : CustomerProfile} {pt : List String}
    (hs : (IntelligentAIEngine.sweep primary providers).1 = none) :
    IntelligentAIEngine.sweep_phase providers primary metrics cap mem td cd pt =
      IntelligentAIEngine.ultimate_fallback (dictGet "local" providers)
        (pt ++ (IntelligentAIEngine.sweep primary providers).2) mem := by
  unfold IntelligentAIEngine.sweep_phase
  rw [hs]

/-- Equation lemma: when the primary attempt succeeds, `analyze_transaction`
returns the decorated result via the primary path and records it. -/
theorem IntelligentAIEngine.analyze_eq_primary_ok
    {providers : List (String × ProviderBehavior)} {primary : String}
    {metrics : List (String × ℚ)} {cap : Nat} {mem : List LearningEntry}
    {td : Transaction} {cd : CustomerProfile} {r : EngineResult}
    (hpa : (IntelligentAIEngine.primary_attempt primary (dictGet primary providers)).1
      = some r) :
    IntelligentAIEngine.analyze_transaction providers primary metrics cap mem td cd =
      { result := .ok (IntelligentAIEngine.set_provider_and_confidence metrics primary r)
          .viaPrimary
        trace := [primary]
        memory := IntelligentAIEngine.store_analysis_result cap mem
          (IntelligentAIEngine.mkLearningEntry td cd
            (IntelligentAIEngine.set_provider_and_confidence metrics primary r)) } := by
  unfold IntelligentAIEngine.analyze_transaction
  rw [hpa]

/-- Equation lemma: when the primary attempt fails (or the primary is absent),
`analyze_transaction` falls through to the sweep phase. -/
theorem IntelligentAIEngine.analyze_eq_sweep_phase
    {providers : List (String × ProviderBehavior)} {primary : String}
    {metrics : List (String × ℚ)} {cap : Nat} {mem : List LearningEntry}
    {td : Transaction} {cd : CustomerProfile}
    (hpa : (IntelligentAIEngine.primary_attempt primary (dictGet primary providers)).1
      = none) :
    IntelligentAIEngine.analyze_transaction providers primary metrics cap mem td cd =
      IntelligentAIEngine.sweep_phase providers primary metrics cap mem td cd
        (IntelligentAIEngine.primary_attempt primary (dictGet primary providers)).2 := by
  unfold IntelligentAIEngine.analyze_transaction
  rw [hpa]

/-- The primary attempt fails whenever the primary lookup yields no provider
whose first call succeeds. -/
theorem IntelligentAIEngine.primary_attempt_none {primary : String}
    {o : Option ProviderBehavior} (h : ∀ beh, o = some beh → beh.first = none) :
    (IntelligentAIEngine.primary_attempt primary o).1 = none := by
  cases o with
  | none => rfl
  | some beh => exact h beh rfl

/-- The primary attempt's trace contribution is `[primary]` or `[]`. -/
theorem IntelligentAIEngine.primary_attempt_trace (primary : String)
    (o : Option ProviderBehavior) :
    (IntelligentAIEngine.primary_attempt primary o).2 = [primary]
    ∨ (IntelligentAIEngine.primary_attempt primary o).2 = [] := by
  cases o with
  | none => exact Or.inr rfl
  | some beh => exact Or.inl rfl

/-- A successful primary attempt comes from a registered primary provider whose
first call succeeded. -/
theorem IntelligentAIEngine.primary_attempt_some {primary : String}
    {o : Option ProviderBehavior} {r : EngineResult}
    (h : (IntelligentAIEngine.primary_attempt primary o).1 = some r) :
    ∃ beh, o = some beh ∧ beh.first = some r := by
  cases o with
  | none => exact absurd h (by simp [IntelligentAIEngine.primary_attempt])
  | some beh => exact ⟨beh, rfl, h⟩

/-- If some non-primary provider succeeds on its first call, the fallback sweep
returns via the sweep path with `fallback_used` set and the succeeding
provider's identifier attached. -/
theorem IntelligentAIEngine.sweep_phase_fallback_ok
    {providers : List (String × ProviderBehavior)} {primary : String}
    {metrics : List (String × ℚ)} {cap : Nat} {mem : List LearningEntry}
    {td : Transaction} {cd : CustomerProfile} {pt : List String}
    (h : ∃ x ∈ providers, x.1 ≠ primary ∧ x.2.first.isSome) :
    ∃ r n, (IntelligentAIEngine.sweep_phase providers primary metrics cap mem td cd pt).result
        = .ok r .viaSweep
      ∧ r.fallback_used = true ∧ r.ai_provider = some n ∧ n ≠ primary
      ∧ ∃ b, (n, b) ∈ providers := by
  have hsome := IntelligentAIEngine.sweep_isSome_of_exists h
  cases hs : (IntelligentAIEngine.sweep primary providers).1 with
  | none =>
    rw [hs] at hsome
    simp at hsome
  | some nr =>
    obtain ⟨n0, r0⟩ := nr
    obtain ⟨hne, b, hmem, _⟩ := IntelligentAIEngine.sweep_some_spec hs
    rw [IntelligentAIEngine.sweep_phase_eq_sweep_ok hs]
    exact ⟨_, n0, rfl, rfl, rfl, hne, b, hmem⟩

/-- If every provider fails its first call and the local provider also fails its
second (ultimate-fallback) call — or is absent — the request errors out with no
result. -/
theorem IntelligentAIEngine.sweep_phase_all_fail_err
    {providers : List (String × ProviderBehavior)} {primary : String}
    {metrics : List (String × ℚ)} {cap : Nat} {mem : List LearningEntry}
    {td : Transaction} {cd : CustomerProfile} {pt : List String}
    (hall : ∀ x ∈ providers, x.2.first = none)
    (hlocal : ∀ beh, dictGet "local" providers = some beh → beh.second = none) :
    (IntelligentAIEngine.sweep_phase providers primary metrics cap mem td cd pt).result
      = .err := by
  have hs : (IntelligentAIEngine.sweep primary providers).1 = none :=
    IntelligentAIEngine.sweep_eq_none_of_all_fail hall
  rw [IntelligentAIEngine.sweep_phase_eq_ultimate hs]
  cases hg : dictGet "local" providers with
  | none => rfl
  | some beh =>
    simp only [IntelligentAIEngine.ultimate_fallback]
    rw [hlocal beh hg]
    rfl

/-- Every `ok` result of the ultimate-fallback step is on the `viaUltimate` path. -/
theorem IntelligentAIEngine.ultimate_fallback_result (local_beh : Option ProviderBehavior)
    (tp : List String) (mem : List LearningEntry) :
    ∀ r p, (IntelligentAIEngine.ultimate_fallback local_beh tp mem).result = .ok r p →
      p = .viaUltimate := by
  cases local_beh with
  | none =>
    intro r p h
    have h' : AnalyzeResult.err = AnalyzeResult.ok r p := h
    exact AnalyzeResult.noConfusion h'
  | some beh =>
    cases hb : beh.second with
    | some r1 =>
      intro r p h
      have h' : AnalyzeResult.ok r1 .viaUltimate = AnalyzeResult.ok r p := by
        rw [← h]
        show AnalyzeResult.ok r1 RetPath.viaUltimate
          = (IntelligentAIEngine.ultimate_result beh.second tp mem).result
        rw [hb]
        rfl
      injection h' with h1 h2

      exact h2.symm
    | none =>
      intro r p h
      have h' : AnalyzeResult.err = AnalyzeResult.ok r p := by
        rw [← h]
        show AnalyzeResult.err
          = (IntelligentAIEngine.ultimate_result beh.second tp mem).result
        rw [hb]
        rfl
      exact AnalyzeResult.noConfusion h'

/-- Every result the sweep phase returns on a non-ultimate path carries the
identifier of a registered provider (non-empty when all registered names are). -/
theorem IntelligentAIEngine.sweep_phase_provider_id
    {providers : List (String × ProviderBehavior)} {primary : String}
    {metrics : List (String × ℚ)} {cap : Nat} {mem : List LearningEntry}
    {td : Transaction} {cd : CustomerProfile} {pt : List String}
    (hne : ∀ x ∈ providers, x.1 ≠ "") :
    ∀ r p, (IntelligentAIEngine.sweep_phase providers primary metrics cap mem td cd pt).result
        = .ok r p → p ≠ .viaUltimate →
      ∃ n, r.ai_provider = some n ∧ n ≠ "" := by
  intro r p h hp
  cases hs : (IntelligentAIEngine.sweep primary providers).1 with
  | some nr =>
    obtain ⟨n0, r0⟩ := nr
    obtain ⟨_, b, hmem, _⟩ := IntelligentAIEngine.sweep_some_spec hs
    rw [IntelligentAIEngine.sweep_phase_eq_sweep_ok hs] at h
    have h' : AnalyzeResult.ok { IntelligentAIEngine.set_provider_and_confidence metrics n0 r0
        with fallback_used := true } .viaSweep = AnalyzeResult.ok r p := h
    injection h' with h1 h2
    subst h1
    exact ⟨n0, rfl, hne _ hmem⟩
  | none =>
    rw [IntelligentAIEngine.sweep_phase_eq_ultimate hs] at h
    exact absurd (IntelligentAIEngine.ultimate_fallback_result _ _ _ r p h) hp

/-- Attempt-count bounds for the sweep phase: with distinct provider names, the
trace of the sweep phase invokes each non-`local` provider at most once and
`local` at most twice; and `local` is invoked twice only when the request ends
in an error or on the ultimate-fallback path. -/
theorem IntelligentAIEngine.sweep_phase_trace_count
    {providers : List (String × ProviderBehavior)} {primary : String}
    {metrics : List (String × ℚ)} {cap : Nat} {mem : List LearningEntry}
    {td : Transaction} {cd : CustomerProfile} {pt : List String}
    (hnodup : (providers.map Prod.fst).Nodup)
    (hpt : pt = [primary] ∨ pt = []) :
    (∀ name, name ≠ "local" →
      ((IntelligentAIEngine.sweep_phase providers primary metrics cap mem td cd pt).trace).count
        name ≤ 1)
    ∧ ((IntelligentAIEngine.sweep_phase providers primary metrics cap mem td cd pt).trace).count
        "local" ≤ 2
    ∧ (((IntelligentAIEngine.sweep_phase providers primary metrics cap mem td cd pt).trace).count
          "local" = 2 →
        (IntelligentAIEngine.sweep_phase providers primary metrics cap mem td cd pt).result = .err
        ∨ ∃ r, (IntelligentAIEngine.sweep_phase providers primary metrics cap mem td cd pt).result
            = .ok r .viaUltimate) := by
  have hsub := IntelligentAIEngine.sweep_trace_sublist primary providers
  have hnd : ((IntelligentAIEngine.sweep primary providers).2).Nodup :=
    List.Nodup.sublist hsub hnodup
  have hcount1 : ∀ name, ((IntelligentAIEngine.sweep primary providers).2).count name ≤ 1 :=
    fun name => List.nodup_iff_count_le_one.mp hnd name
  have hcount0 : ((IntelligentAIEngine.sweep primary providers).2).count primary = 0 :=
    List.count_eq_zero.mpr (IntelligentAIEngine.sweep_primary_not_mem primary providers)
  have hpt1 : ∀ name, pt.count name ≤ 1 := by
    rcases hpt with rfl | rfl
    · exact fun name => le_trans (List.count_le_length name [primary]) (by simp)
    · simp
  have hpt0 : ∀ name, name ≠ primary → pt.count name = 0 := by
    rcases hpt with rfl | rfl
    · intro name hne
      exact List.count_eq_zero.mpr (by simp [hne])
    · intro name _
      simp
  have hps : ∀ name, (pt ++ (IntelligentAIEngine.sweep primary providers).2).count name ≤ 1 := by
    intro name
    rw [List.count_append]
    by_cases hnp : name = primary
    · have h0 : ((IntelligentAIEngine.sweep primary providers).2).count name = 0 := by
        rw [hnp]
        exact hcount0
      have h1 := hpt1 name
      omega
    · have h0 := hpt0 name hnp
      have h1 := hcount1 name
      omega
  have hps2 : ∀ name, name ≠ "local" →
      (pt ++ (IntelligentAIEngine.sweep primary providers).2 ++ ["local"]).count name ≤ 1 := by
    intro name hne
    rw [List.count_append]
    have h3 : (["local"] : List String).count name = 0 :=
      List.count_eq_zero.mpr (by simp [hne])
    have h1 := hps name
    omega
  have hps3 : (pt ++ (IntelligentAIEngine.sweep primary providers).2 ++ ["local"]).count
      "local" ≤ 2 := by
    rw [List.count_append]
    have h3 : (["local"] : List String).count "local" = 1 := by simp
    have h1 := hps "local"
    omega
  cases hs : (IntelligentAIEngine.sweep primary providers).1 with
  | some nr =>
    obtain ⟨n0, r0⟩ := nr
    rw [IntelligentAIEngine.sweep_phase_eq_sweep_ok hs]
    refine ⟨fun name _ => hps name, le_trans (hps "local") (by omega), fun h2 => ?_⟩
    have h2' : (pt ++ (IntelligentAIEngine.sweep primary providers).2).count "local" = 2 := h2
    have h1 := hps "local"
    exact (by omega : False).elim
  | none =>
    rw [IntelligentAIEngine.sweep_phase_eq_ultimate hs]
    cases hg : dictGet "local" providers with
    | some beh =>
      simp only [IntelligentAIEngine.ultimate_fallback]
      cases hb : beh.second with
      | some r => exact ⟨hps2, hps3, fun _ => Or.inr ⟨r, rfl⟩⟩
      | none => exact ⟨hps2, hps3, fun _ => Or.inl rfl⟩
    | none =>
      exact ⟨fun name _ => hps name, le_trans (hps "local") (by omega), fun _ => Or.inl rfl⟩

/-- **C1 counterexample**.  With primary `openai` failing and `local` failing
during the sweep, the orchestrator invokes `local` a *second* time as the
ultimate fallback: the invocation trace is `[openai, local, local]`, so the
`local` backend is attempted more than once in a single request, contrary to
the claim. -/
theorem local_backend_attempted_twice :
    (IntelligentAIEngine.analyze_transaction
        [("openai", { first := none, second := none }),
         ("local", { first := none, second := none })]
        "openai" [] 1000 [] {} {}).trace = ["openai", "local", "local"]
    ∧ ¬((IntelligentAIEngine.analyze_transaction
        [("openai", { first := none, second := none }),
         ("local", { first := none, second := none })]
        "openai" [] 1000 [] {} {}).trace.count "local" ≤ 1) := by
  refine ⟨rfl, ?_⟩
  decide

/-- **C1** (amended).  Per analysis request, every scoring backend other than
`local` is attempted at most once (the primary attempt plus a single linear
sweep, no retry loops); the `local` backend is attempted at most twice, and its
second attempt happens only as the ultimate fallback — i.e. only on requests
that end on the ultimate-fallback path or in an error after every backend,
`local` included, has failed. -/
theorem backend_attempt_counts (providers : List (String × ProviderBehavior))
    (primary : String) (metrics : List (String × ℚ)) (cap : Nat)
    (mem : List LearningEntry) (td : Transaction) (cd : CustomerProfile)
    (hnodup : (providers.map Prod.fst).Nodup) :
    (∀ name, name ≠ "local" →
      ((IntelligentAIEngine.analyze_transaction providers primary metrics cap mem td cd).trace).count
        name ≤ 1)
    ∧ ((IntelligentAIEngine.analyze_transaction providers primary metrics cap mem td cd).trace).count
        "local" ≤ 2
    ∧ (((IntelligentAIEngine.analyze_transaction providers primary metrics cap mem td cd).trace).count
          "local" = 2 →
        (IntelligentAIEngine.analyze_transaction providers primary metrics cap mem td cd).result
          = .err
        ∨ ∃ r, (IntelligentAIEngine.analyze_transaction providers primary metrics cap mem td cd).result
            = .ok r .viaUltimate) := by
  cases hpa : (IntelligentAIEngine.primary_attempt primary (dictGet primary providers)).1 with
  | some r =>
    rw [IntelligentAIEngine.analyze_eq_primary_ok hpa]
    have hc1 : ∀ nm : String, ([primary] : List String).count nm ≤ 1 := by
      intro nm
      by_cases hnm : nm = primary
      · subst hnm
        simp
      · rw [List.count_eq_zero.mpr (by simp [hnm])]
        omega
    refine ⟨fun name _ => hc1 name, le_trans (hc1 "local") (by omega), fun h2 => ?_⟩
    have h2' : ([primary] : List String).count "local" = 2 := h2
    have h1 := hc1 "local"
    exact (by omega : False).elim
  | none =>
    rw [IntelligentAIEngine.analyze_eq_sweep_phase hpa]
    exact IntelligentAIEngine.sweep_phase_trace_count hnodup
      (IntelligentAIEngine.primary_attempt_trace primary (dictGet primary providers))

/-- Witness for C1 (amended), at the counterexample's configuration: `openai`
is attempted once, `local` twice, and the request indeed ends in an error after
all backends failed. -/
theorem backend_attempt_counts_witness :
    ((IntelligentAIEngine.analyze_transaction
        [("openai", { first := none, second := none }),
         ("local", { first := none, second := none })]
        "openai" [] 1000 [] {} {}).trace).count "openai" ≤ 1
    ∧ ((IntelligentAIEngine.analyze_transaction
        [("openai", { first := none, second := none }),
         ("local", { first := none, second := none })]
        "openai" [] 1000 [] {} {}).trace).count "local" ≤ 2
    ∧ ((IntelligentAIEngine.analyze_transaction
        [("openai", { first := none, second := none }),
         ("local", { first := none, second := none })]
        "openai" [] 1000 [] {} {}).result = .err
      ∨ ∃ r, (IntelligentAIEngine.analyze_transaction
          [("openai", { first := none, second := none }),
           ("local", { first := none, second := none })]
          "openai" [] 1000 [] {} {}).result = .ok r .viaUltimate) := by
  have h := backend_attempt_counts
    [("openai", { first := none, second := none }),
     ("local", { first := none, second := none })]
    "openai" [] 1000 [] {} {} (by decide)
  exact ⟨h.1 "openai" (by decide), h.2.1, h.2.2 (by decide)⟩

/-- **C2** (confirmed).  When the primary backend fails (raises, or is not
among the available providers) and some other backend succeeds when attempted,
the returned assessment carries `fallback_used = true` and a backend identifier
different from the configured primary; and when every backend fails — every
first call raises, and the local backend's ultimate-fallback (second) call also
raises — the analyze call propagates the error (modelled as `err`, the spec's
`AllBackendsFailed`) and yields no result. -/
theorem fallback_flags_and_exhaustion (providers : List (String × ProviderBehavior))
    (primary : String) (metrics : List (String × ℚ)) (cap : Nat)
    (mem : List LearningEntry) (td : Transaction) (cd : CustomerProfile)
    (hprimary : ∀ beh, dictGet primary providers = some beh → beh.first = none) :
    ((∃ x ∈ providers, x.1 ≠ primary ∧ x.2.first.isSome) →
      ∃ r n, (IntelligentAIEngine.analyze_transaction providers primary metrics cap mem td cd).result
          = .ok r .viaSweep
        ∧ r.fallback_used = true ∧ r.ai_provider = some n ∧ n ≠ primary)
    ∧ ((∀ x ∈ providers, x.2.first = none) →
        (∀ beh, dictGet "local" providers = some beh → beh.second = none) →
        (IntelligentAIEngine.analyze_transaction providers primary metrics cap mem td cd).result
          = .err) := by
  have hpa : (IntelligentAIEngine.primary_attempt primary (dictGet primary providers)).1
      = none := IntelligentAIEngine.primary_attempt_none hprimary
  rw [IntelligentAIEngine.analyze_eq_sweep_phase hpa]
  constructor
  · intro hex
    obtain ⟨r, n, h1, h2, h3, h4, _⟩ := IntelligentAIEngine.sweep_phase_fallback_ok hex
    exact ⟨r, n, h1, h2, h3, h4⟩
  · intro hall hlocal
    exact IntelligentAIEngine.sweep_phase_all_fail_err hall hlocal

/-- Witness for C2: primary `openai` fails and the `local` backend succeeds
during the sweep — the result is returned via the sweep path with
`fallback_used` and an identifier different from `openai`; and with `local` as
a primary that always fails, the request yields no result (`err`). -/
theorem fallback_flags_and_exhaustion_witness :
    (∃ r n, (IntelligentAIEngine.analyze_transaction
        [("openai", { first := none, second := none }),
         ("local", { first := some (LocalIntelligenceProvider.analyze {} {}), second := none })]
        "openai" [] 1000 [] {} {}).result = .ok r .viaSweep
      ∧ r.fallback_used = true ∧ r.ai_provider = some n ∧ n ≠ "openai")
    ∧ (IntelligentAIEngine.analyze_transaction
        [("local", { first := none, second := none })]
        "local" [] 1000 [] {} {}).result = .err := by
  have h := fallback_flags_and_exhaustion
    [("openai", { first := none, second := none }),
     ("local", { first := some (LocalIntelligenceProvider.analyze {} {}), second := none })]
    "openai" [] 1000 [] {} {}
    (by intro beh hb
        have hb2 : some ({ first := none, second := none } : ProviderBehavior) = some beh := hb
        cases hb2
        rfl)
  have hAll := fallback_flags_and_exhaustion
    [("local", { first := none, second := none })]
    "local" [] 1000 [] {} {}
    (by intro beh hb
        have hb2 : some ({ first := none, second := none } : ProviderBehavior) = some beh := hb
        cases hb2
        rfl)
  constructor
  · refine h.1 ⟨("local", { first := some (LocalIntelligenceProvider.analyze {} {}), second := none }), ?_, ?_, rfl⟩
    · exact List.mem_cons_of_mem _ (List.mem_cons_self _ _)
    · decide
  · refine hAll.2 ?_ ?_
    · intro x hx
      have hx2 : x = ("local", ({ first := none, second := none } : ProviderBehavior)) := by
        simpa using hx
      rw [hx2]
    · intro beh hb
      have hb2 : some ({ first := none, second := none } : ProviderBehavior) = some beh := hb
      cases hb2
      rfl

/-- **C9 counterexample**.  On the ultimate-fallback path the orchestrator
returns the local provider's raw result without attaching any backend
identifier: with `local` as the failing primary whose second (ultimate)
invocation succeeds, the returned assessment has `ai_provider` absent
(`none`) — it carries no (non-empty) backend identifier. -/
theorem ultimate_fallback_lacks_provider_id :
    (IntelligentAIEngine.analyze_transaction
        [("local", { first := none, second := some (LocalIntelligenceProvider.analyze {} {}) })]
        "local" [] 1000 [] {} {}).result
      = .ok (LocalIntelligenceProvider.analyze {} {}) .viaUltimate
    ∧ (LocalIntelligenceProvider.analyze {} {}).ai_provider = none := ⟨rfl, rfl⟩

/-- **C9** (amended).  Every `RiskAssessment` returned via the primary-provider
or sweep path carries a backend identifier naming a registered provider, and it
is non-empty whenever all registered provider names are non-empty (as they are
in the engine: `openai`, `local`, `hybrid`).  Results returned via the
ultimate-fallback path are the local provider's raw output and carry no
engine-attached identifier (the facade later substitutes the default `local`). -/
theorem provider_id_on_non_ultimate_paths (providers : List (String × ProviderBehavior))
    (primary : String) (metrics : List (String × ℚ)) (cap : Nat)
    (mem : List LearningEntry) (td : Transaction) (cd : CustomerProfile)
    (hne : ∀ x ∈ providers, x.1 ≠ "") :
    ∀ r p, (IntelligentAIEngine.analyze_transaction providers primary metrics cap mem td cd).result
        = .ok r p → p ≠ .viaUltimate →
      ∃ n, r.ai_provider = some n ∧ n ≠ "" := by
  intro r p h hp
  cases hpa : (IntelligentAIEngine.primary_attempt primary (dictGet primary providers)).1 with
  | some r0 =>
    rw [IntelligentAIEngine.analyze_eq_primary_ok hpa] at h
    obtain ⟨beh, hget, _⟩ := IntelligentAIEngine.primary_attempt_some hpa
    have h' : AnalyzeResult.ok
        (IntelligentAIEngine.set_provider_and_confidence metrics primary r0) RetPath.viaPrimary
        = AnalyzeResult.ok r p := h
    injection h' with h1 h2
    subst h1
    exact ⟨primary, rfl, hne _ (dictGet_mem hget)⟩
  | none =>
    rw [IntelligentAIEngine.analyze_eq_sweep_phase hpa] at h
    exact IntelligentAIEngine.sweep_phase_provider_id hne r p h hp

/-- Witness for C9 (amended): `local` as primary succeeds on its first call;
the returned assessment is on the primary path and carries the non-empty
identifier `local`. -/
theorem provider_id_on_non_ultimate_paths_witness :
    ∃ r p, (IntelligentAIEngine.analyze_transaction
        [("local", { first := some (LocalIntelligenceProvider.analyze {} {}), second := none })]
        "local" [] 1000 [] {} {}).result = .ok r p
      ∧ p ≠ .viaUltimate ∧ ∃ n, r.ai_provider = some n ∧ n ≠ "" := by
  have h := provider_id_on_non_ultimate_paths
    [("local", { first := some (LocalIntelligenceProvider.analyze {} {}), second := none })]
    "local" [] 1000 [] {} {} (by decide)
  exact ⟨_, .viaPrimary, rfl, by decide, h _ .viaPrimary rfl (by decide)⟩
